import Mathlib

/-!
# Verification of the Element Classification & Locator Generation Engine

A shallow embedding of the core of the `dom_parser` repository:

* `src/dom_parser/core/element_classifier.py` (class `ElementClassifier`)
* `src/dom_parser/utils/css_selector_generator.py` (class `CSSSelectorsGenerator`)
* `src/utils/xpath_generator.py` (class `XPathGenerator`)
* `src/dom_parser/types/element_data_types.py` (enumerations and tables)

Modelling conventions, fixed once here:

* A BeautifulSoup `Tag` is a `Node` (tag name, ordered string-valued
  attribute map, class list, direct text) together with the subtree of its
  children (`DTree`).  bs4 stores the multi-valued `class` attribute apart
  from the plain string attributes, which is mirrored by the separate
  `classes` field; every place where the Python code iterates
  `element.attrs` has been checked to either skip `class` explicitly or to
  match only names that `class` can never have.
* Python `==` on `Tag`s is structural equality on (name, attributes,
  contents); it is embedded as structural equality of `DTree` values
  (`DTree.beq`, proved equivalent to `=`).
* A node inside a document is a `Loc`: the subtree itself plus the chain of
  ancestor contexts (a zipper), which models the bs4 `parent` pointer and
  sibling lists.  The whole document is the `BeautifulSoup` object: a root
  pseudo-node with tag name `[document]`, no attributes and no text, whose
  children are the top-level elements (`docTree`).
* `element.get_text(strip=True)` is modelled by `DTree.getText`, assuming
  each stored `text` fragment is already whitespace-stripped, so that the
  extra `.strip()` calls of the Python code are the identity.
* Python float scores are modelled in `ℚ`; the bonus/penalty table of the
  spec uses exact decimal constants.
* Fields of `InteractiveElement` that no claim refers to (interaction
  types, hints, properties, accessibility info, bounding box, visibility
  flags, placeholder, value, form field type) are omitted from the record.
-/

namespace DomParser

/-- Character constants, kept as code points to avoid quote literals. -/
def squote : Char := Char.ofNat 39

def dquote : Char := Char.ofNat 34

def backslash : Char := Char.ofNat 92

/-- One DOM element without its children: tag name, ordered string-valued
attribute map (excluding `class`), the multi-valued `class` attribute, and
the element's direct (already stripped) text content. -/
structure Node where
  tag : String
  attrs : List (String × String)
  classes : List String
  text : String
deriving DecidableEq, Repr

mutual
/-- A DOM subtree: a bs4 `Tag` with its contents.  `DForest` is an explicit
list type so that mutual structural recursion and induction stay
available. -/
inductive DTree : Type where
  | node : Node → DForest → DTree

/-- The list of child subtrees of a `DTree`. -/
inductive DForest : Type where
  | nil : DForest
  | cons : DTree → DForest → DForest
end

mutual
/-- Structural equality of subtrees: the embedding of Python `==` on bs4
`Tag`s (same name, same attributes, same contents). -/
def DTree.beq : DTree → DTree → Bool
  | .node n f, .node m g => decide (n = m) && DForest.beqF f g

def DForest.beqF : DForest → DForest → Bool
  | .nil, .nil => true
  | .cons t f, .cons u g => DTree.beq t u && DForest.beqF f g
  | .nil, .cons _ _ => false
  | .cons _ _, .nil => false
end

mutual
/-- Structural equality reflects propositional equality (proof term kept a
`def` so that the decidability instances below can be defined before the
theorem section of this file). -/
def DTree.beq_iff : ∀ a b : DTree, DTree.beq a b = true ↔ a = b
  | .node n f, .node m g => by
    simp [DTree.beq, DForest.beqF_iff f g]

/-- Forest version of `DTree.beq_iff`. -/
def DForest.beqF_iff : ∀ f g : DForest, DForest.beqF f g = true ↔ f = g
  | .nil, .nil => by simp [DForest.beqF]
  | .cons t f, .cons u g => by
    simp [DForest.beqF, DTree.beq_iff t u, DForest.beqF_iff f g]
  | .nil, .cons _ _ => by simp [DForest.beqF]
  | .cons _ _, .nil => by simp [DForest.beqF]
end

instance : DecidableEq DTree := fun a b =>
  decidable_of_iff _ (DTree.beq_iff a b)

instance : DecidableEq DForest := fun f g =>
  decidable_of_iff _ (DForest.beqF_iff f g)

/-- Reflexivity of the structural equality test. -/
def DTree.beq_refl (t : DTree) : DTree.beq t t = true :=
  (DTree.beq_iff t t).mpr rfl

def DForest.toList : DForest → List DTree
  | .nil => []
  | .cons t f => t :: DForest.toList f

def DForest.ofList : List DTree → DForest
  | [] => .nil
  | t :: ts => .cons t (DForest.ofList ts)

def DTree.nodeData : DTree → Node
  | .node n _ => n

def DTree.childForest : DTree → DForest
  | .node _ f => f

def DTree.children (t : DTree) : List DTree :=
  t.childForest.toList

mutual
/-- `element.get_text(strip=True)`: concatenation of all text fragments of
the subtree in document order (each fragment stored pre-stripped). -/
def DTree.getText : DTree → String
  | .node n f => n.text ++ DForest.getTextF f

def DForest.getTextF : DForest → String
  | .nil => ""
  | .cons t f => DTree.getText t ++ DForest.getTextF f
end

/-- `element.get(name)` for plain string attributes. -/
def Node.attrGet (n : Node) (key : String) : Option String :=
  n.attrs.lookup key

/-- Python truthiness of `element.get(name)`: present and nonempty. -/
def Node.attrTruthy (n : Node) (key : String) : Bool :=
  match n.attrGet key with
  | some v => !v.isEmpty
  | none => false

/-- `element.get(name, default)`. -/
def Node.attrGetD (n : Node) (key dflt : String) : String :=
  (n.attrGet key).getD dflt

/-- One ancestor context: the parent's own node data and the siblings to
the left and right of the focused child. -/
structure Crumb where
  node : Node
  before : List DTree
  after : List DTree
deriving DecidableEq

/-- A located element: its subtree plus the ancestor chain (innermost
first).  This models a bs4 `Tag` reachable through `parent` pointers. -/
structure Loc where
  self : DTree
  ctx : List Crumb
deriving DecidableEq

def Loc.node (l : Loc) : Node :=
  l.self.nodeData

/-- `element.parent`: rebuild the parent subtree from the first crumb.
`none` exactly when the element is the document root. -/
def Loc.parentLoc (l : Loc) : Option Loc :=
  match l.ctx with
  | [] => none
  | c :: rest => some ⟨.node c.node (DForest.ofList (c.before ++ l.self :: c.after)), rest⟩

/-- Node data of every ancestor, innermost first (ending at the document
root). -/
def Loc.ancestorNodes (l : Loc) : List Node :=
  l.ctx.map Crumb.node

/-- All ancestors as located elements, innermost first (structural
recursion on the crumb chain; agrees with iterating `parentLoc`). -/
def ancestorLocsAux : DTree → List Crumb → List Loc
  | _, [] => []
  | t, c :: rest =>
    let pt : DTree := .node c.node (DForest.ofList (c.before ++ t :: c.after))
    Loc.mk pt rest :: ancestorLocsAux pt rest

def Loc.ancestorLocs (l : Loc) : List Loc :=
  ancestorLocsAux l.self l.ctx

mutual
/-- Pre-order enumeration of the elements of a forest, each with its full
ancestor context.  `parent` is the node data of the owner of the forest and
`ctx` its own context. -/
def forestLocs (parent : Node) (ctx : List Crumb) (before : List DTree) :
    DForest → List Loc
  | .nil => []
  | .cons t rest =>
    let l : Loc := ⟨t, ⟨parent, before, rest.toList⟩ :: ctx⟩
    l :: treeDescLocs t (⟨parent, before, rest.toList⟩ :: ctx) ++
      forestLocs parent ctx (before ++ [t]) rest

/-- Pre-order enumeration of the strict descendants of a subtree placed in
context `ctx`. -/
def treeDescLocs : DTree → List Crumb → List Loc
  | .node n f, ctx => forestLocs n ctx [] f
end

/-- `soup.find_all()`: every element of the document in pre-order
(excluding the `[document]` root itself). -/
def allLocs (doc : DTree) : List Loc :=
  treeDescLocs doc []

/-- The `BeautifulSoup` document root wrapping the top-level elements. -/
def docNode : Node := ⟨"[document]", [], [], ""⟩

def docTree (topLevel : List DTree) : DTree :=
  .node docNode (DForest.ofList topLevel)

/-! ## String helpers (Python string operations used by the code) -/

/-- Whether `pat` occurs as a contiguous sublist of `hay`. -/
def listContainsSub (hay pat : List Char) : Bool :=
  match hay with
  | [] => pat.isEmpty
  | _ :: rest => pat.isPrefixOf hay || listContainsSub rest pat

/-- Python `pat in hay` on strings. -/
def strContainsSub (hay pat : String) : Bool :=
  listContainsSub hay.data pat.data

/-- Python `s.lower()` (ASCII, which covers all constants of the code). -/
def strLower (s : String) : String :=
  ⟨s.data.map Char.toLower⟩

/-- Python `s.startswith(pre)`. -/
def strStartsWith (s pre : String) : Bool :=
  pre.data.isPrefixOf s.data

/-- Python `''.join(parts)`. -/
def strConcat : List String → String
  | [] => ""
  | p :: rest => p ++ strConcat rest

/-- Python `'sep'.join(parts)`. -/
def joinWith (sep : String) : List String → String
  | [] => ""
  | [p] => p
  | p :: rest => p ++ sep ++ joinWith sep rest

/-- Split a character list at every character satisfying `p` (no
collapsing of adjacent separators, like Python `str.split(sep)`). -/
def splitChars (p : Char → Bool) : List Char → List Char → List String
  | [], acc => [⟨acc.reverse⟩]
  | d :: rest, acc =>
    if p d then ⟨acc.reverse⟩ :: splitChars p rest []
    else splitChars p rest (d :: acc)

/-- Python `s.split()`: split on whitespace runs, dropping empty pieces. -/
def wordsOf (s : String) : List String :=
  (splitChars Char.isWhitespace s.data []).filter (fun w => !w.isEmpty)

/-- Python `s.replace(' ', '')`. -/
def removeSpaces (s : String) : String :=
  ⟨s.data.filter (fun c => c ≠ ' ')⟩

/-- Python `s.replace('#', '')` (as used on the stored `#id` locator). -/
def removeHashes (s : String) : String :=
  ⟨s.data.filter (fun c => c ≠ '#')⟩

def isWordChar (c : Char) : Bool :=
  c.isAlphanum || c = '_'

def isHexLowerDigit (c : Char) : Bool :=
  c.isDigit || ('a' ≤ c && c ≤ 'f')

/-! ## Regular-expression checks embedded from the Python sources -/

/-- `_is_valid_id` of both generators: `re.match(r'^[a-zA-Z][\w-]*$', id)`
(and the guard that the id is nonempty). -/
def isValidId (s : String) : Bool :=
  match s.data with
  | [] => false
  | c :: rest => c.isAlpha && rest.all (fun d => isWordChar d || d = '-')

/-- One utility-class pattern group of `_is_meaningful_class`:
`^(mt?|mb?|ml?|mr?|pt?|pb?|pl?|pr?)-?\d+$` after lowercasing (the Python
match is case-insensitive). -/
def isSpacingUtility (cs : List Char) : Bool :=
  match cs with
  | c :: rest =>
    (c = 'm' || c = 'p') &&
      (let tail :=
        match rest with
        | d :: rest' =>
          if d = 't' || d = 'b' || d = 'l' || d = 'r' then rest' else rest
        | [] => rest
      let tail' :=
        match tail with
        | '-' :: tail' => tail'
        | _ => tail
      !tail'.isEmpty && tail'.all Char.isDigit)
  | [] => false

/-- `^(w|h)-?\d+$` after lowercasing. -/
def isSizeUtility (cs : List Char) : Bool :=
  match cs with
  | c :: rest =>
    (c = 'w' || c = 'h') &&
      (let tail :=
        match rest with
        | '-' :: tail' => tail'
        | _ => rest
      !tail.isEmpty && tail.all Char.isDigit)
  | [] => false

/-- `^bg-\w+$` after lowercasing. -/
def isBgUtility (cs : List Char) : Bool :=
  match cs with
  | 'b' :: 'g' :: '-' :: rest => !rest.isEmpty && rest.all isWordChar
  | _ => false

/-- `^text-\w+$` after lowercasing (subsumes `^text-(left|right|center)$`,
which the Python list checks first; both reject the class). -/
def isTextUtility (cs : List Char) : Bool :=
  match cs with
  | 't' :: 'e' :: 'x' :: 't' :: '-' :: rest => !rest.isEmpty && rest.all isWordChar
  | _ => false

/-- `_is_meaningful_class`, identical in both generator classes: length at
least 2, not hash-like (`^[a-f0-9]{8,}$` on the lowercased name), and not
matching any utility pattern (all utility regexes are case-insensitive, so
they are tested on the lowercased name). -/
def isMeaningfulClass (className : String) : Bool :=
  let lower := (strLower className).data
  if className.data.length < 2 then false
  else if lower.length ≥ 8 && lower.all isHexLowerDigit then false
  else if lower = "hidden".data || lower = "visible".data || lower = "flex".data ||
      lower = "block".data || lower = "inline".data then false
  else if isSpacingUtility lower then false
  else if isSizeUtility lower then false
  else if isBgUtility lower then false
  else if isTextUtility lower then false
  else true

/-! ## Escaping functions -/

/-- `CSSSelectorsGenerator._escape_css_identifier`:
`re.sub(r'([^a-zA-Z0-9_-])', r'\\\1', identifier)` — prefix every character
outside `[a-zA-Z0-9_-]` with a backslash. -/
def escapeCssIdentifier (s : String) : String :=
  ⟨s.data.flatMap (fun c =>
    if c.isAlphanum || c = '_' || c = '-' then [c] else [backslash, c])⟩

/-- `CSSSelectorsGenerator._escape_attribute_value`:
`value.replace('"', '\\"').replace("'", "\\'")`.  The first replacement
introduces no quote of the second kind, so the sequential replaces equal a
single character-wise pass. -/
def escapeAttributeValue (s : String) : String :=
  ⟨s.data.flatMap (fun c =>
    if c = dquote || c = squote then [backslash, c] else [c])⟩

/-- `CSSSelectorsGenerator._escape_text_content`:
`text.replace("'", "\\'").replace('"', '\\"')`. -/
def escapeTextContent (s : String) : String :=
  ⟨s.data.flatMap (fun c =>
    if c = squote || c = dquote then [backslash, c] else [c])⟩

/-- `XPathGenerator._escape_xpath_string`: returns the value unchanged
when it lacks a single quote, or when it lacks a double quote; only when
both quote characters occur does it build a `concat(...)` expression from
the pieces split on single quotes. -/
def escapeXPathString (value : String) : String :=
  if !(value.data.contains squote) then value
  else if !(value.data.contains dquote) then value
  else
    let parts := splitChars (fun c => c = squote) value.data []
    let escapedParts := (parts.enum.flatMap (fun (i, part) =>
      (if i > 0 then [String.mk [dquote, squote, dquote]] else []) ++
      (if part ≠ "" then [String.mk [squote] ++ part ++ String.mk [squote]] else [])))
    "concat(" ++ joinWith ", " escapedParts ++ ")"

/-! ## Enumerations and tables (`element_data_types.py`) -/

/-- `ElementType`. -/
inductive ElementType where
  | BUTTON | LINK | INPUT | TEXTAREA | SELECT | CHECKBOX | RADIO
  | FILE_INPUT | SUBMIT | FORM
  | TEXT | IMAGE | VIDEO | AUDIO | TABLE | LIST | HEADING | PARAGRAPH
  | NAVIGATION | HEADER | FOOTER | MAIN | ASIDE | SECTION | ARTICLE
  | DIV | SPAN
  | UNKNOWN
deriving DecidableEq, Repr

/-- `SemanticType` (constructors that the classifier can actually emit;
the enumeration is closed and the remaining members are never produced by
`_determine_semantic_type`, hence irrelevant to every claim). -/
inductive SemanticType where
  | SEARCH_FORM | LOGIN_FORM | REGISTRATION_FORM | CONTACT_FORM
  | CHECKOUT_FORM | CART | WISHLIST | SOCIAL_MEDIA | ADVERTISEMENT
  | COOKIE_BANNER | PRIMARY_NAV
deriving DecidableEq, Repr

/-- `get_interactive_element_types()`. -/
def interactiveElementTypes : List ElementType :=
  [.BUTTON, .LINK, .INPUT, .TEXTAREA, .SELECT, .CHECKBOX, ElementType.RADIO,
   .FILE_INPUT, .SUBMIT, .FORM]

/-- `HTML_TAG_TO_ELEMENT_TYPE`. -/
def htmlTagToElementType : List (String × ElementType) :=
  [("button", .BUTTON), ("a", .LINK), ("input", .INPUT),
   ("textarea", .TEXTAREA), ("select", .SELECT), ("form", .FORM),
   ("img", .IMAGE), ("video", .VIDEO), ("audio", ElementType.AUDIO),
   ("table", .TABLE), ("ul", .LIST), ("ol", .LIST), ("li", .LIST),
   ("h1", .HEADING), ("h2", .HEADING), ("h3", .HEADING), ("h4", .HEADING),
   ("h5", .HEADING), ("h6", .HEADING), ("p", .PARAGRAPH),
   ("nav", .NAVIGATION), ("header", .HEADER), ("footer", .FOOTER),
   ("main", .MAIN), ("aside", .ASIDE), ("section", .SECTION),
   ("article", .ARTICLE), ("div", .DIV), ("span", .SPAN)]

/-! ## Element Classifier (`element_classifier.py`) -/

/-- Classifier configuration: `min_text_length` (default 3) and
`include_hidden_elements` (default `False`).  `confidence_threshold` is
read but never used by any embedded code path. -/
structure ClassifierConfig where
  minTextLength : Nat
  includeHiddenElements : Bool
deriving DecidableEq, Repr

def defaultConfig : ClassifierConfig := ⟨3, false⟩

/-- `_get_element_type`. -/
def getElementType (n : Node) : ElementType :=
  let tagName := strLower n.tag
  if tagName = "input" then
    let inputType := strLower (n.attrGetD "type" "text")
    if inputType = "checkbox" then .CHECKBOX
    else if inputType = "radio" then ElementType.RADIO
    else if inputType = "file" then .FILE_INPUT
    else if inputType = "submit" || inputType = "button" then .SUBMIT
    else .INPUT
  else
    (htmlTagToElementType.lookup tagName).getD .UNKNOWN

/-- `self.interactive_attributes` (a Python set; only membership is ever
tested, so the iteration order is irrelevant). -/
def interactiveAttributeNames : List String :=
  ["onclick", "onmousedown", "onmouseup", "onkeypress", "onkeydown",
   "href", "data-toggle", "data-target", "data-dismiss", "role"]

def interactiveRoles : List String :=
  ["button", "link", "menuitem", "tab", "option", "checkbox", "radio"]

def interactiveClassPatterns : List String :=
  ["btn", "button", "link", "click", "toggle", "submit"]

/-- `_has_interactive_attributes`.  The truthiness guard `if not
element.attrs` sees the bs4 attribute dict, which includes `class`; in the
model that dict is empty iff both `attrs` and `classes` are empty. -/
def hasInteractiveAttributes (n : Node) : Bool :=
  if n.attrs.isEmpty && n.classes.isEmpty then false
  else
    interactiveAttributeNames.any (fun a => (n.attrGet a).isSome) ||
    interactiveRoles.contains (strLower (n.attrGetD "role" "")) ||
    n.classes.any (fun c =>
      interactiveClassPatterns.any (fun p => strContainsSub (strLower c) p))

/-- `_is_hidden_element`. -/
def isHiddenElement (n : Node) : Bool :=
  (n.attrGet "hidden").isSome ||
  n.attrGet "aria-hidden" = some "true" ||
  (let style := n.attrGetD "style" ""
   !style.isEmpty &&
     (strContainsSub (removeSpaces (strLower style)) "display:none" ||
      strContainsSub (removeSpaces (strLower style)) "visibility:hidden")) ||
  (n.tag = "input" && n.attrGet "type" = some "hidden")

/-- `_load_semantic_patterns()` (an insertion-ordered dict). -/
def semanticPatterns : List (SemanticType × List String) :=
  [(.SEARCH_FORM, ["search", "find", "query", "lookup"]),
   (.LOGIN_FORM, ["login", "sign in", "log in", "signin", "authenticate"]),
   (.REGISTRATION_FORM, ["register", "sign up", "signup", "create account"]),
   (.CONTACT_FORM, ["contact", "message", "feedback", "inquiry"]),
   (.CHECKOUT_FORM, ["checkout", "payment", "billing", "purchase"]),
   (.CART, ["cart", "basket", "bag", "shopping"]),
   (.WISHLIST, ["wishlist", "favorites", "saved", "bookmark"]),
   (.SOCIAL_MEDIA, ["share", "like", "follow", "tweet", "facebook", "twitter"]),
   (.ADVERTISEMENT, ["ad", "advertisement", "sponsor", "promoted"]),
   (.COOKIE_BANNER, ["cookie", "privacy", "accept", "consent"])]

/-- `_determine_semantic_type`. -/
def determineSemanticType (n : Node) (textContent : String) : Option SemanticType :=
  let elementId := strLower (n.attrGetD "id" "")
  let elementClasses := strLower (joinWith " " n.classes)
  let textLower := strLower textContent
  let hit := fun (ind : String) =>
    strContainsSub elementId ind || strContainsSub elementClasses ind ||
      strContainsSub textLower ind
  if ["search", "query", "find"].any hit then some .SEARCH_FORM
  else if ["login", "signin", "sign-in", "auth", "user"].any hit then
    some .LOGIN_FORM
  else if n.tag = "nav" ||
      ["nav", "menu", "header", "breadcrumb"].any (fun ind =>
        strContainsSub elementId ind || strContainsSub elementClasses ind) then
    some .PRIMARY_NAV
  else
    (semanticPatterns.find? (fun (_, pats) =>
      pats.any (fun p => strContainsSub textLower p))).map Prod.fst

/-- `_calculate_confidence_score`, with the Python floats modelled in `ℚ`.
`text_content.strip()` is the identity in the model (see header). -/
def calculateConfidenceScore (cfg : ClassifierConfig) (self : DTree)
    (elementType : ElementType) (semanticType : Option SemanticType) : ℚ :=
  let n := self.nodeData
  let score : ℚ := 0.5
  let score := if interactiveElementTypes.contains elementType then score + 0.3 else score
  let score := if semanticType.isSome then score + 0.2 else score
  let score := if n.attrTruthy "id" || n.attrTruthy "name" then score + 0.1 else score
  let textContent := self.getText
  let score :=
    if !textContent.isEmpty && textContent.length > cfg.minTextLength then
      score + 0.1
    else score
  let score :=
    if (n.tag = "div" || n.tag = "span") && !hasInteractiveAttributes n then
      score - 0.2
    else score
  min (max score 0) 1

/-- `_generate_element_id`.  The sibling position uses
`element.parent.find_all(tag_name)` — all descendants of the parent with
the same tag, in pre-order — and `list.index`, which finds the first
structurally equal entry (bs4 `Tag.__eq__` is structural). -/
def generateElementId (l : Loc) : String :=
  let n := l.node
  if n.attrTruthy "id" then "id_" ++ n.attrGetD "id" ""
  else if n.attrTruthy "name" then "name_" ++ n.attrGetD "name" ""
  else
    let tagName := n.tag
    let siblings :=
      match l.parentLoc with
      | some p =>
        ((treeDescLocs p.self p.ctx).map Loc.self).filter
          (fun (t : DTree) => t.nodeData.tag == tagName)
      | none => [l.self]
    let position := ((siblings.findIdx? (fun s => DTree.beq s l.self)).getD 0)
    let baseId := tagName ++ "_" ++ toString position
    let baseId :=
      if !n.classes.isEmpty then baseId ++ "_" ++ (n.classes.headD "")
      else baseId
    let baseId :=
      if n.attrTruthy "type" then baseId ++ "_" ++ n.attrGetD "type" ""
      else baseId
    let text := l.self.getText
    let baseId :=
      if !text.isEmpty && text.length > 3 then
        let textPart := strLower (joinWith "_" ((wordsOf text).take 2))
        let textPart : String := ⟨textPart.data.filter isWordChar⟩
        if !textPart.isEmpty then baseId ++ "_" ++ textPart else baseId
      else baseId
    ⟨baseId.data.take 100⟩

/-! ## CSS selectors and the uniqueness Oracle
(`css_selector_generator.py`)

The Python generator builds selector strings and hands them to
`soup.select`.  The embedding builds the same selectors in structured form
(`SimpleSel`, `CssSel`); `renderSimple`/`renderCss` produce exactly the
strings the Python code produces, and the Oracle (`selectList`) evaluates
the structured form with CSS semantics, i.e. on the string as soupsieve
would parse it.  The one parsing quirk that the program actually hits is
the document root: its bs4 name is `[document]`, which as selector text is
an attribute-presence test `[document]`; `generateElementPart` therefore
emits `attrPresent "document"` for that node. -/

/-- One compound selector (a single level of a chain). -/
inductive SimpleSel where
  | tagOnly (tag : String)
  | idOnly (id : String)
  | tagId (tag id : String)
  | classList (classes : List String)
  | tagClass (tag cls : String)
  | attrEq (name value : String)
  | attrPresent (name : String)
deriving DecidableEq, Repr

/-- A full generated selector. -/
inductive CssSel where
  | chain (parts : List SimpleSel)
  | containsText (tag text : String)
  | nthChild (tag : String) (position : Nat)
deriving DecidableEq, Repr

def renderSimple : SimpleSel → String
  | .tagOnly t => t
  | .idOnly i => "#" ++ escapeCssIdentifier i
  | .tagId t i => t ++ "#" ++ escapeCssIdentifier i
  | .classList cs => strConcat (cs.map (fun c => "." ++ escapeCssIdentifier c))
  | .tagClass t c => t ++ "." ++ escapeCssIdentifier c
  | .attrEq n v =>
    "[" ++ n ++ "=" ++ String.mk [dquote] ++ escapeAttributeValue v ++
      String.mk [dquote] ++ "]"
  | .attrPresent n => "[" ++ n ++ "]"

def renderCss : CssSel → String
  | .chain parts => joinWith " > " (parts.map renderSimple)
  | .containsText t s =>
    t ++ ":contains(" ++ String.mk [squote] ++ escapeTextContent s ++
      String.mk [squote] ++ ")"
  | .nthChild t p => t ++ ":nth-child(" ++ toString p ++ ")"

/-- Whether one compound selector matches one element (by its own node
data only). -/
def matchesSimple (s : SimpleSel) (n : Node) : Bool :=
  match s with
  | .tagOnly t => n.tag == t
  | .idOnly i => n.attrGet "id" == some i
  | .tagId t i => n.tag == t && n.attrGet "id" == some i
  | .classList cs => !cs.isEmpty && cs.all (fun c => n.classes.contains c)
  | .tagClass t c => n.tag == t && n.classes.contains c
  | .attrEq name v => n.attrGet name == some v
  | .attrPresent name => (n.attrGet name).isSome

/-- Child-combinator chain: the parts, innermost first, must match the
element and its consecutive ancestors. -/
def matchesUpChain : List SimpleSel → Node → List Node → Bool
  | [], _, _ => true
  | [p], n, _ => matchesSimple p n
  | p :: ps, n, ancestors =>
    matchesSimple p n &&
      match ancestors with
      | [] => false
      | a :: rest => matchesUpChain ps a rest

/-- Whether a chain (outermost first, as generated) matches an element
with the given ancestor nodes (innermost first). -/
def matchesChain (parts : List SimpleSel) (n : Node) (ancestors : List Node) : Bool :=
  !parts.isEmpty && matchesUpChain parts.reverse n ancestors

def matchesCss (sel : CssSel) (l : Loc) : Bool :=
  match sel with
  | .chain parts => matchesChain parts l.node l.ancestorNodes
  | .containsText t s => l.node.tag == t && strContainsSub l.self.getText s
  | .nthChild _ _ => false

/-- The Oracle: `soup.select(selector)` on the document, in document
order.  (`:contains` and `:nth-child` selectors are generated but never
queried by the embedded call graph; their match semantics are modelled
conservatively and never used by a theorem.) -/
def selectList (doc : DTree) (sel : CssSel) : List Loc :=
  (allLocs doc).filter (matchesCss sel)

/-- `_is_selector_unique`: exactly one selected element, structurally
equal (Python `==`) to the target. -/
def isSelectorUnique (doc : DTree) (sel : CssSel) (target : Loc) : Bool :=
  match selectList doc sel with
  | [l] => DTree.beq l.self target.self
  | _ => false

/-! The classifier constructs `CSSSelectorsGenerator()` with no
configuration, so the generator defaults apply throughout:
`max_depth = 10`, `prefer_ids = True`, `prefer_classes = True`,
`include_nth_child` unset (falsy). -/

def cssMaxDepth : Nat := 10

/-- `_generate_id_selector`. -/
def generateIdSelector (l : Loc) : Option CssSel :=
  if l.node.attrTruthy "id" && isValidId (l.node.attrGetD "id" "") then
    some (.chain [.idOnly (l.node.attrGetD "id" "")])
  else none

/-- The priority attribute list shared by both generators. -/
def uniqueAttrs : List String :=
  ["name", "data-testid", "data-cy", "data-test", "data-automation"]

/-- The inline pattern `if self._is_selector_unique(selector, element,
soup): return selector` shared by the verified strategies. -/
def tryUnique (doc : DTree) (l : Loc) (sel : CssSel) : Option CssSel :=
  if isSelectorUnique doc sel l then some sel else none

/-- `_generate_unique_attribute_selector`: the priority attributes first
(only truthy values), then any other `data-*` attribute; each candidate is
tested with the Oracle and the first unique one is returned. -/
def generateUniqueAttributeSelector (doc : DTree) (l : Loc) : Option CssSel :=
  match uniqueAttrs.firstM (fun a =>
      match l.node.attrGet a with
      | some v => if !v.isEmpty then tryUnique doc l (.chain [.attrEq a v]) else none
      | none => none) with
  | some sel => some sel
  | none =>
    l.node.attrs.firstM (fun av =>
      if strStartsWith av.1 "data-" && !uniqueAttrs.contains av.1 then
        tryUnique doc l (.chain [.attrEq av.1 av.2])
      else none)

/-- `_generate_class_selector`: single meaningful classes in original
order, then the combination of all meaningful classes; each candidate is
Oracle-tested. -/
def generateClassSelector (doc : DTree) (l : Loc) : Option CssSel :=
  if l.node.classes.isEmpty then none
  else
    match l.node.classes.firstM (fun c =>
        if isMeaningfulClass c then
          tryUnique doc l (.chain [.classList [c]])
        else none) with
    | some sel => some sel
    | none =>
      if l.node.classes.length > 1 then
        if !(l.node.classes.filter isMeaningfulClass).isEmpty then
          tryUnique doc l (.chain [.classList (l.node.classes.filter isMeaningfulClass)])
        else none
      else none

/-- `_generate_element_part`: id wins, else the first meaningful class if
it strictly narrows the match set, else the bare tag.  The bare name of
the bs4 document root, `[document]`, reparses as an attribute-presence
selector. -/
def generateElementPart (doc : DTree) (l : Loc) : SimpleSel :=
  let n := l.node
  if n.attrTruthy "id" then .tagId n.tag (n.attrGetD "id" "")
  else
    let meaningful := n.classes.filter isMeaningfulClass
    match meaningful with
    | c :: _ =>
      if (selectList doc (.chain [.tagClass n.tag c])).length <
          (selectList doc (.chain [.tagOnly n.tag])).length then
        .tagClass n.tag c
      else if n.tag = "[document]" then .attrPresent "document"
      else .tagOnly n.tag
    | [] =>
      if n.tag = "[document]" then .attrPresent "document"
      else .tagOnly n.tag

/-- The loop body of `_generate_hierarchical_selector`: walk up, prepend
each level's part (when it renders nonempty, `if part:`), and return the
first prefix the Oracle verifies; when the walk ends, return the
accumulated full chain unverified. -/
def hierGo (doc : DTree) (target : Loc) :
    Nat → Option Loc → List SimpleSel → Option (List SimpleSel)
  | 0, _, parts => if parts.isEmpty then none else some parts
  | _ + 1, none, parts => if parts.isEmpty then none else some parts
  | fuel + 1, some cur, parts =>
    let part := generateElementPart doc cur
    let parts' := if (renderSimple part).isEmpty then parts else part :: parts
    if parts'.isEmpty then hierGo doc target fuel cur.parentLoc parts'
    else if isSelectorUnique doc (.chain parts') target then some parts'
    else hierGo doc target fuel cur.parentLoc parts'

/-- `_generate_hierarchical_selector`. -/
def generateHierarchicalSelector (doc : DTree) (l : Loc) : Option CssSel :=
  (hierGo doc l cssMaxDepth (some l) []).map .chain

/-- `_generate_text_selector`: leaf-like tags only, text of length at most
50. -/
def generateTextSelector (l : Loc) : Option CssSel :=
  if l.self.getText.isEmpty || l.self.getText.length > 50 then none
  else if l.node.tag = "a" || l.node.tag = "button" ||
      ["h1", "h2", "h3", "h4", "h5", "h6"].contains l.node.tag then
    some (.containsText l.node.tag l.self.getText)
  else none

/-- `_generate_nth_child_selector`: 1-based index among same-tag direct
siblings, found by structural equality. -/
def generateNthChildSelector (l : Loc) : Option CssSel :=
  match l.ctx with
  | [] => none
  | c :: _ =>
    match ((c.before ++ l.self :: c.after).filter
        (fun (t : DTree) => t.nodeData.tag == l.node.tag)).findIdx?
        (fun s => DTree.beq s l.self) with
    | some i => some (.nthChild l.node.tag (i + 1))
    | none => none

/-- `generate_selector`: strategies in order, first candidate wins;
`nth-child` is consulted only when every other strategy failed (the
`include_nth_child` default is falsy); the bare tag name is the final
fallback (`_generate_fallback_selector`). -/
def generateSelectorSel (doc : DTree) (l : Loc) : Option CssSel :=
  match generateIdSelector l with
  | some s => some s
  | none =>
  match generateUniqueAttributeSelector doc l with
  | some s => some s
  | none =>
  match generateClassSelector doc l with
  | some s => some s
  | none =>
  match generateHierarchicalSelector doc l with
  | some s => some s
  | none =>
  match generateTextSelector l with
  | some s => some s
  | none => generateNthChildSelector l

def generateSelector (doc : DTree) (l : Loc) : String :=
  match generateSelectorSel doc l with
  | some s => renderCss s
  | none => l.node.tag

/-! ## XPath generator (`xpath_generator.py`)

The classifier constructs `XPathGenerator()` with no configuration, so
`max_depth = 10`, `prefer_ids = True`, `prefer_attributes = True`,
`use_text_content = True`.  The XPath expressions are kept as strings:
unlike the CSS side they are never evaluated, because
`_is_xpath_unique` returns `True` unconditionally. -/

def sq : String := String.mk [squote]

/-- `_is_xpath_unique`: "For now, return True to avoid breaking the flow"
— a no-op that trusts every candidate. -/
def isXPathUnique (_xpath : String) (_target : Loc) : Bool :=
  true

/-- `_is_xpath_too_generic`: full-match against `^//\*$`, `^//div$`,
`^//span$`. -/
def isXPathTooGeneric (xpath : String) : Bool :=
  xpath == "//*" || xpath == "//div" || xpath == "//span"

/-- `_generate_id_xpath`. -/
def generateIdXpath (l : Loc) : Option String :=
  if l.node.attrTruthy "id" && isValidId (l.node.attrGetD "id" "") then
    some ("//*[@id=" ++ sq ++ escapeXPathString (l.node.attrGetD "id" "") ++ sq ++ "]")
  else none

/-- The attribute-predicate expression `//*[@name='value']` shared by the
attribute strategies. -/
def xpathAttrCandidate (name value : String) : String :=
  "//*[@" ++ name ++ "=" ++ sq ++ escapeXPathString value ++ sq ++ "]"

/-- The inline pattern `if self._is_xpath_unique(xpath, element, soup):
return xpath` — always taken, since the check is a no-op. -/
def tryXPathUnique (l : Loc) (x : String) : Option String :=
  if isXPathUnique x l then some x else none

/-- `_generate_unique_attribute_xpath`: priority attributes (truthy
values) first, then every other attribute outside
`{class, style, id} ∪ uniqueAttrs`; each candidate passes the no-op
uniqueness check, so the first candidate built is returned. -/
def generateUniqueAttributeXpath (l : Loc) : Option String :=
  match uniqueAttrs.firstM (fun a =>
      match l.node.attrGet a with
      | some v => if !v.isEmpty then tryXPathUnique l (xpathAttrCandidate a v) else none
      | none => none) with
  | some x => some x
  | none =>
    l.node.attrs.firstM (fun av =>
      if av.1 == "class" || av.1 == "style" || av.1 == "id" ||
          uniqueAttrs.contains av.1 then none
      else tryXPathUnique l (xpathAttrCandidate av.1 av.2))

/-- The four text-predicate candidates of `_generate_text_xpath`. -/
def xpathTextCandidates (tagName escaped : String) : List String :=
  ["//" ++ tagName ++ "[text()=" ++ sq ++ escaped ++ sq ++ "]",
   "//" ++ tagName ++ "[normalize-space(text())=" ++ sq ++ escaped ++ sq ++ "]",
   "//*[text()=" ++ sq ++ escaped ++ sq ++ "]",
   "//*[normalize-space()=" ++ sq ++ escaped ++ sq ++ "]"]

/-- `_generate_text_xpath`: the first candidate not on the too-generic
deny-list. -/
def generateTextXpath (l : Loc) : Option String :=
  if l.self.getText.isEmpty || l.self.getText.length > 100 then none
  else
    (xpathTextCandidates l.node.tag (escapeXPathString l.self.getText)).find?
      (fun x => !isXPathTooGeneric x)

/-- `_generate_position_part`: 1-based index among same-tag direct
siblings (structural `list.index`); bare tag when there is no parent or —
unreachably, since the element is among its own siblings — on
`ValueError`. -/
def generatePositionPart (l : Loc) : String :=
  match l.ctx with
  | [] => l.node.tag
  | c :: _ =>
    match ((c.before ++ l.self :: c.after).filter
        (fun (t : DTree) => t.nodeData.tag == l.node.tag)).findIdx?
        (fun s => DTree.beq s l.self) with
    | some i => l.node.tag ++ "[" ++ toString (i + 1) ++ "]"
    | none => l.node.tag

/-- `_generate_element_xpath_part`: id predicate, else the first
attribute outside `{class, style}` with a value shorter than 50
characters, else the first meaningful class as a `contains(@class, ...)`
predicate, else the position part. -/
def generateElementXpathPart (l : Loc) : String :=
  if l.node.attrTruthy "id" then
    l.node.tag ++ "[@id=" ++ sq ++ escapeXPathString (l.node.attrGetD "id" "") ++
      sq ++ "]"
  else
    match l.node.attrs.find? (fun (name, value) =>
        !(name == "class" || name == "style") && value.length < 50) with
    | some (name, value) =>
      l.node.tag ++ "[@" ++ name ++ "=" ++ sq ++ escapeXPathString value ++ sq ++ "]"
    | none =>
      match l.node.classes.filter isMeaningfulClass with
      | c :: _ =>
        l.node.tag ++ "[contains(@class, " ++ sq ++ escapeXPathString c ++ sq ++ ")]"
      | [] => generatePositionPart l

mutual
/-- The loop of `_generate_hierarchical_xpath`: prepend the part of each
level (`if part:` skips empty parts) and return the joined path as soon as
two parts are collected — the per-extension uniqueness re-test is the
constant-true `_is_xpath_unique`. -/
def xpathHierGo : Nat → Option Loc → List String → Option (List String)
  | 0, _, parts => if parts.isEmpty then none else some parts
  | _ + 1, none, parts => if parts.isEmpty then none else some parts
  | fuel + 1, some cur, parts =>
    xpathHierNext fuel cur
      (if (generateElementXpathPart cur).isEmpty then parts
       else generateElementXpathPart cur :: parts)
termination_by fuel _ _ => 2 * fuel

/-- The test-and-recurse tail of one loop iteration, on the already
extended part list. -/
def xpathHierNext (fuel : Nat) (cur : Loc) (parts' : List String) :
    Option (List String) :=
  if parts'.length ≥ 2 && isXPathUnique ("/" ++ joinWith "/" parts') cur then
    some parts'
  else xpathHierGo fuel cur.parentLoc parts'
termination_by 2 * fuel + 1
end

/-- `_generate_hierarchical_xpath`. -/
def generateHierarchicalXpath (l : Loc) : Option String :=
  (xpathHierGo cssMaxDepth (some l) []).map (fun ps => "/" ++ joinWith "/" ps)

/-- `_generate_simple_parent_path`: up to three ancestor levels, id
predicate stops the walk, bare tag names otherwise. -/
def simpleParentPathGo : Nat → Option Loc → List String → List String
  | 0, _, parts => parts
  | _ + 1, none, parts => parts
  | fuel + 1, some cur, parts =>
    let n := cur.node
    if n.attrTruthy "id" then
      (n.tag ++ "[@id=" ++ sq ++ escapeXPathString (n.attrGetD "id" "") ++ sq ++ "]")
        :: parts
    else simpleParentPathGo fuel cur.parentLoc (n.tag :: parts)

def generateSimpleParentPath (p : Loc) : Option String :=
  match simpleParentPathGo 3 (some p) [] with
  | [] => none
  | parts => some ("/" ++ joinWith "/" parts)

/-- `_generate_position_xpath`. -/
def generatePositionXpath (l : Loc) : Option String :=
  match l.ctx with
  | [] => none
  | c :: _ =>
    match ((c.before ++ l.self :: c.after).filter
        (fun (t : DTree) => t.nodeData.tag == l.node.tag)).findIdx?
        (fun s => DTree.beq s l.self) with
    | some i =>
      match l.parentLoc.bind generateSimpleParentPath with
      | some parentPath =>
        some (parentPath ++ "/" ++ l.node.tag ++ "[" ++ toString (i + 1) ++ "]")
      | none => some ("//" ++ l.node.tag ++ "[" ++ toString (i + 1) ++ "]")
    | none => none

/-- `generate_xpath`: strategies in order, first candidate wins, with the
`//tag` fallback (`_generate_fallback_xpath`) when every strategy
declines. -/
def generateXpath (l : Loc) : String :=
  match generateIdXpath l with
  | some x => x
  | none =>
  match generateUniqueAttributeXpath l with
  | some x => x
  | none =>
  match generateTextXpath l with
  | some x => x
  | none =>
  match generateHierarchicalXpath l with
  | some x => x
  | none =>
  match generatePositionXpath l with
  | some x => x
  | none => "//" ++ l.node.tag

/-! ## Locator map and record assembly (`element_classifier.py`) -/

/-- `_generate_locators`: the insertion-ordered dict of locator strategy
name to expression string.  The id/name/class shortcut entries interpolate
raw attribute values (no escaping) and are never Oracle-tested. -/
def generateLocators (doc : DTree) (l : Loc) : List (String × String) :=
  let n := l.node
  let idLocs :=
    if n.attrTruthy "id" then
      let i := n.attrGetD "id" ""
      [("id", "#" ++ i), ("css", "#" ++ i),
       ("xpath", "//*[@id=" ++ sq ++ i ++ sq ++ "]")]
    else []
  let nameLocs :=
    if n.attrTruthy "name" then
      let nm := n.attrGetD "name" ""
      [("name", nm), ("css_name", "[name=" ++ sq ++ nm ++ sq ++ "]"),
       ("xpath_name", "//*[@name=" ++ sq ++ nm ++ sq ++ "]")]
    else []
  let classLocs :=
    if !n.classes.isEmpty then
      [("css_class", "." ++ joinWith "." n.classes)]
    else []
  let cssGen :=
    let s := generateSelector doc l
    if !s.isEmpty then [("css_generated", s)] else []
  let xpathGen :=
    let x := generateXpath l
    if !x.isEmpty then [("xpath_generated", x)] else []
  let textLocs :=
    let text := l.self.getText
    if !text.isEmpty then
      if n.tag = "a" then [("link_text", text)]
      else if (n.tag = "button" || n.tag = "input") &&
          (n.attrGet "type" = some "submit" || n.attrGet "type" = some "button") then
        [("button_text", text)]
      else []
    else []
  let attrLocs :=
    n.attrs.filterMap (fun (name, value) =>
      if name = "data-testid" || name = "data-cy" || name = "data-test" then
        some ("attr_" ++ name, "[" ++ name ++ "=" ++ sq ++ value ++ sq ++ "]")
      else none)
  idLocs ++ nameLocs ++ classLocs ++ cssGen ++ xpathGen ++ textLocs ++ attrLocs

/-- The classification result for one node (`InteractiveElement`,
restricted to the fields any claim refers to; see header). -/
structure Record where
  element_id : String
  element_type : ElementType
  tag_name : String
  locators : List (String × String)
  text_content : String
  semantic_type : Option SemanticType
  confidence_score : ℚ
deriving DecidableEq, Repr

/-- `_classify_single_element`: `None` exactly when the element type is
not interactive-by-default and no interactive attribute signal is
present; otherwise the assembled record. -/
def classifySingleElement (cfg : ClassifierConfig) (doc : DTree) (l : Loc) :
    Option Record :=
  let elementType := getElementType l.node
  if !interactiveElementTypes.contains elementType &&
      !hasInteractiveAttributes l.node then none
  else
    let textContent := l.self.getText
    let semanticType := determineSemanticType l.node textContent
    some
      { element_id := generateElementId l
        element_type := elementType
        tag_name := l.node.tag
        locators := generateLocators doc l
        text_content := textContent
        semantic_type := semanticType
        confidence_score := calculateConfidenceScore cfg l.self elementType semanticType }

/-- The elements that survive the loop of `classify_elements`: every
element of the document in pre-order, skipping hidden elements unless
configured otherwise, keeping those the classifier accepts. -/
def classifiedLocs (cfg : ClassifierConfig) (doc : DTree) : List Loc :=
  (allLocs doc).filter (fun l =>
    (cfg.includeHiddenElements || !isHiddenElement l.node) &&
    (classifySingleElement cfg doc l).isSome)

/-- `classify_elements` (the record list it returns; the relationship
pass over the same list is `buildElementRelationships` below). -/
def classifyElements (cfg : ClassifierConfig) (doc : DTree) : List Record :=
  (allLocs doc).filterMap (fun l =>
    if !cfg.includeHiddenElements && isHiddenElement l.node then none
    else classifySingleElement cfg doc l)

/-! ## Relationship builder (`_build_element_relationships`) -/

/-- `ElementHierarchy`, restricted to the fields the relationship pass
writes (`parent`, `children`, `depth`; `siblings` and the rest keep their
defaults). -/
structure Hierarchy where
  parent : Option String
  children : List String
  depth : Nat
deriving DecidableEq, Repr

/-- `_find_dom_element_by_locators`: the `id` locator first (its `#` signs
stripped, matched as a `soup.find(id=...)` document-order search), else
the `name` locator; the `css` branch is dead code because
`_generate_locators` only stores a `css` key together with an `id` key. -/
def findDomElementByLocators (doc : DTree) (locators : List (String × String)) :
    Option Loc :=
  match locators.lookup "id" with
  | some v =>
    let wanted := removeHashes v
    (allLocs doc).find? (fun l => l.node.attrGet "id" == some wanted)
  | none =>
    match locators.lookup "name" with
    | some v => (allLocs doc).find? (fun l => l.node.attrGet "name" == some v)
    | none => none

/-- Python dict insertion with overwrite-in-place semantics. -/
def dictInsert (m : List (String × Record × Loc)) (k : String) (v : Record × Loc) :
    List (String × Record × Loc) :=
  if m.any (fun e => e.1 == k) then
    m.map (fun e => if e.1 == k then (k, v) else e)
  else m ++ [(k, v)]

/-- The `element_map` built at the start of the relationship pass: records
resolvable through their id or name locator, keyed by `element_id`. -/
def buildElementMap (doc : DTree) (records : List Record) :
    List (String × Record × Loc) :=
  records.foldl (fun m rec' =>
    match findDomElementByLocators doc rec'.locators with
    | some d => dictInsert m rec'.element_id (rec', d)
    | none => m) []

/-- `_find_interactive_element_for_dom`: the first map entry whose stored
DOM node is structurally equal (Python `==`) to the given subtree. -/
def findInteractiveElementForDom (t : DTree) (m : List (String × Record × Loc)) :
    Option Record :=
  (m.find? (fun e => DTree.beq e.2.2.self t)).map (fun e => e.2.1)

/-- The hierarchy computed for one map entry: parent from the immediate
DOM parent only, children from all mapped descendants, depth as the
ancestor count up to (and including) the document root. -/
def hierarchyFor (m : List (String × Record × Loc)) (elementId : String)
    (d : Loc) : Hierarchy :=
  let parent :=
    match d.parentLoc with
    | some p => (findInteractiveElementForDom p.self m).map Record.element_id
    | none => none
  let children :=
    (treeDescLocs d.self d.ctx).filterMap (fun child =>
      match findInteractiveElementForDom child.self m with
      | some r => if r.element_id ≠ elementId then some r.element_id else none
      | none => none)
  ⟨parent, children, d.ctx.length⟩

/-- `_build_element_relationships`: the id-keyed hierarchy assignments the
pass writes back into the records. -/
def buildElementRelationships (doc : DTree) (records : List Record) :
    List (String × Hierarchy) :=
  let m := buildElementMap doc records
  m.map (fun e => (e.1, hierarchyFor m e.1 e.2.2))

/-! ## Specification-side definitions

These follow the wording of the specification (not the code) and exist
only to be compared with the embedded code. -/

/-- The inclusion allow-list as the specification words it: an
event-handler attribute, `href`, `data-toggle`/`data-target`/
`data-dismiss`, a `role` attribute, an interactive ARIA role, or a class
name containing one of the substrings btn, button, link, click, toggle,
submit. -/
def specInclusionSignal (n : Node) : Bool :=
  ["onclick", "onmousedown", "onmouseup", "onkeypress", "onkeydown"].any
      (fun a => (n.attrGet a).isSome) ||
  (n.attrGet "href").isSome ||
  ["data-toggle", "data-target", "data-dismiss"].any
      (fun a => (n.attrGet a).isSome) ||
  (n.attrGet "role").isSome ||
  interactiveRoles.contains (strLower (n.attrGetD "role" "")) ||
  n.classes.any (fun c =>
    interactiveClassPatterns.any (fun p => strContainsSub (strLower c) p))

/-- The confidence formula as the specification words it: base 0.5, plus
0.3 for a default-interactive element type, plus 0.2 for a resolved
semantic type, plus 0.1 for an id or name attribute, plus 0.1 when the
extracted text length exceeds the configured minimum, minus 0.2 for a
generic container (div/span) without any inclusion signal, clamped to
[0, 1]. -/
def confidenceSpec (cfg : ClassifierConfig) (self : DTree)
    (elementType : ElementType) (semanticType : Option SemanticType) : ℚ :=
  let n := self.nodeData
  let raw : ℚ := 0.5 +
    (if interactiveElementTypes.contains elementType then 0.3 else 0) +
    (if semanticType.isSome then 0.2 else 0) +
    (if n.attrTruthy "id" || n.attrTruthy "name" then 0.1 else 0) +
    (if self.getText.length > cfg.minTextLength then 0.1 else 0) -
    (if (n.tag = "div" || n.tag = "span") && !specInclusionSignal n then 0.2 else 0)
  min (max raw 0) 1

/-- The parent relation as the specification words it: the element id of
the nearest classified ancestor, skipping unclassified intermediate
ancestors; `none` when no ancestor is classified. -/
def nearestClassifiedAncestorId (cfg : ClassifierConfig) (doc : DTree)
    (l : Loc) : Option String :=
  ((l.ancestorLocs).find? (fun a => (classifySingleElement cfg doc a).isSome)).map
    generateElementId

/-! ## Concrete fixtures used by counterexamples and witnesses -/

/-- `<div class="card" onclick="go()">` — classified through the
`onclick` signal. -/
def cardDiv : DTree := .node ⟨"div", [("onclick", "go()")], ["card"], ""⟩ .nil

/-- A document with two identical `card` divs. -/
def docCards : DTree := docTree [cardDiv, cardDiv]

/-- The first card div inside `docCards`. -/
def cardLoc : Loc := ⟨cardDiv, [⟨docNode, [], [cardDiv]⟩]⟩

/-- `<button id="dup">Go</button>`. -/
def dupButton : DTree := .node ⟨"button", [("id", "dup")], [], "Go"⟩ .nil

/-- A document with a duplicated id attribute. -/
def docDupIds : DTree := docTree [dupButton, dupButton]

/-- The first duplicated-id button inside `docDupIds`. -/
def dupLoc : Loc := ⟨dupButton, [⟨docNode, [], [dupButton]⟩]⟩

/-- `<button class="btn">Send</button>`. -/
def sendButton : DTree := .node ⟨"button", [], ["btn"], "Send"⟩ .nil

/-- A document with two structurally identical sibling buttons — valid
HTML (no duplicated id attribute). -/
def docTwins : DTree := docTree [sendButton, sendButton]

/-- `<button id="c">Go</button>` under an unclassified `<div>` under
`<div id="gp" onclick="x()">`. -/
def grandChildButton : DTree := .node ⟨"button", [("id", "c")], [], "Go"⟩ .nil

def middleDiv : DTree := .node ⟨"div", [], [], ""⟩ (.cons grandChildButton .nil)

def grandParentDiv : DTree :=
  .node ⟨"div", [("id", "gp"), ("onclick", "x()")], [], ""⟩ (.cons middleDiv .nil)

/-- The document for the skipped-ancestor scenario. -/
def docSkip : DTree := docTree [grandParentDiv]

/-- The inner button of `docSkip`, with its full ancestor context. -/
def skipButtonLoc : Loc :=
  ⟨grandChildButton,
   [⟨middleDiv.nodeData, [], []⟩, ⟨grandParentDiv.nodeData, [], []⟩,
    ⟨docNode, [], []⟩]⟩

/-- The middle (unclassified) div of `docSkip` as a located element. -/
def middleDivLoc : Loc :=
  ⟨middleDiv, [⟨grandParentDiv.nodeData, [], []⟩, ⟨docNode, [], []⟩]⟩

/-- `<button hidden>Hi</button>` — hidden yet interactive-by-default. -/
def hiddenButton : DTree := .node ⟨"button", [("hidden", "")], [], "Hi"⟩ .nil

def docHidden : DTree := docTree [hiddenButton]

def hiddenLoc : Loc := ⟨hiddenButton, [⟨docNode, [], []⟩]⟩

/-- `<input name="O'Brien">`: an attribute value containing a single
quote. -/
def obrienInput : DTree := .node ⟨"input", [("name", "O'Brien")], [], ""⟩ .nil

def docObrien : DTree := docTree [obrienInput]

def obrienLoc : Loc := ⟨obrienInput, [⟨docNode, [], []⟩]⟩

/-- `<button data-testid="pay">Pay</button>` next to a plain div: the
`data-testid` attribute selector is unique here. -/
def payButton : DTree := .node ⟨"button", [("data-testid", "pay")], [], "Pay"⟩ .nil

def plainDiv : DTree := .node ⟨"div", [("onclick", "y()")], [], ""⟩ .nil

def docPay : DTree := docTree [payButton, plainDiv]

def payLoc : Loc := ⟨payButton, [⟨docNode, [], [plainDiv]⟩]⟩

/-! ## Helper lemmas -/

theorem strAppend_data (a b : String) : (a ++ b).data = a.data ++ b.data :=
  String.data_append a b

theorem mem_strAppend_left {c : Char} {a : String} (b : String)
    (h : c ∈ a.data) : c ∈ (a ++ b).data := by
  rw [strAppend_data]; exact List.mem_append_left _ h

theorem mem_strAppend_right {c : Char} (a : String) {b : String}
    (h : c ∈ b.data) : c ∈ (a ++ b).data := by
  rw [strAppend_data]; exact List.mem_append_right _ h

theorem strAppend_ne_empty_left {a : String} (b : String) (h : a ≠ "") :
    a ++ b ≠ "" := by
  intro he
  apply h
  have hd : (a ++ b).data = ("" : String).data := congrArg String.data he
  rw [strAppend_data] at hd
  have ha : a.data = [] := (List.append_eq_nil.mp hd).1
  cases a with
  | mk d =>
    simp only at ha
    rw [ha]

theorem joinWith_mem {c : Char} (sep : String) :
    ∀ (parts : List String), (∃ p ∈ parts, c ∈ p.data) →
      c ∈ (joinWith sep parts).data
  | [], h => by simp at h
  | [p], h => by
    rcases h with ⟨q, hq, hc⟩
    have hq' : q = p := by simpa using hq
    rw [hq'] at hc
    exact hc
  | p :: q :: rest, h => by
    rcases h with ⟨r, hr, hc⟩
    rcases List.mem_cons.mp hr with h1 | h2
    · have hcp : c ∈ p.data := h1 ▸ hc
      exact mem_strAppend_left _ (mem_strAppend_left _ hcp)
    · exact mem_strAppend_right (p ++ sep)
        (joinWith_mem sep (q :: rest) ⟨r, h2, hc⟩)

theorem strAppend_ne_empty_right (a : String) {b : String} (h : b ≠ "") :
    a ++ b ≠ "" := by
  intro he
  apply h
  have hd : (a ++ b).data = ("" : String).data := congrArg String.data he
  rw [strAppend_data] at hd
  have hb : b.data = [] := (List.append_eq_nil.mp hd).2
  cases b with
  | mk d =>
    simp only at hb
    rw [hb]

theorem joinWith_ne_empty (sep : String) (p : String) (rest : List String)
    (h : p ≠ "") : joinWith sep (p :: rest) ≠ "" := by
  cases rest with
  | nil => simpa [joinWith] using h
  | cons q r =>
    show p ++ sep ++ joinWith sep (q :: r) ≠ ""
    exact strAppend_ne_empty_left _ (strAppend_ne_empty_left _ h)

theorem findIdx?_isSome_of_mem {α : Type} {p : α → Bool} {l : List α} {x : α}
    (hx : x ∈ l) (hp : p x = true) : (l.findIdx? p).isSome = true := by
  rcases h : l.findIdx? p with _ | i
  · rw [List.findIdx?_eq_none_iff] at h
    exact absurd hp (by simp [h x hx])
  · rfl

theorem firstM_some {α β : Type} {f : α → Option β} :
    ∀ {l : List α} {b : β}, l.firstM f = some b → ∃ a ∈ l, f a = some b
  | [], b, h => by simp [List.firstM] at h
  | a :: rest, b, h => by
    have h' : (f a <|> rest.firstM f) = some b := h
    rcases hfa : f a with _ | v
    · rw [hfa] at h'
      simp at h'
      rcases firstM_some h' with ⟨x, hx, hfx⟩
      exact ⟨x, List.mem_cons_of_mem _ hx, hfx⟩
    · rw [hfa] at h'
      simp at h'
      exact ⟨a, List.mem_cons_self _ _, by rw [hfa, h']⟩

/-- The uniqueness verdict of the Oracle, unfolded: exactly one match,
structurally equal to the target. -/
theorem isSelectorUnique_spec {doc : DTree} {sel : CssSel} {target : Loc}
    (h : isSelectorUnique doc sel target = true) :
    (selectList doc sel).length = 1 ∧
      ∀ m ∈ selectList doc sel, DTree.beq m.self target.self = true := by
  unfold isSelectorUnique at h
  rcases hs : selectList doc sel with _ | ⟨l, rest⟩
  · rw [hs] at h; simp at h
  · rcases rest with _ | ⟨l2, rest2⟩
    · rw [hs] at h
      refine ⟨rfl, ?_⟩
      intro m hm
      rcases List.mem_singleton.mp hm with rfl
      exact h
    · rw [hs] at h; simp at h

theorem tryUnique_some {doc : DTree} {l : Loc} {s sel : CssSel}
    (h : tryUnique doc l s = some sel) :
    sel = s ∧ isSelectorUnique doc sel l = true := by
  unfold tryUnique at h
  split at h
  · rename_i hu
    rcases Option.some_inj.mp h with rfl
    exact ⟨rfl, hu⟩
  · simp at h

/-- The code returns to the attribute-strategy caller only
Oracle-verified selectors. -/
theorem generateUniqueAttributeSelector_unique {doc : DTree} {l : Loc}
    {sel : CssSel} (h : generateUniqueAttributeSelector doc l = some sel) :
    isSelectorUnique doc sel l = true := by
  unfold generateUniqueAttributeSelector at h
  split at h
  · rename_i s hp
    rcases Option.some_inj.mp h with rfl
    rcases firstM_some hp with ⟨a, _, hf⟩
    rcases hg : l.node.attrGet a with _ | v
    · rw [hg] at hf; simp at hf
    · rw [hg] at hf
      simp only at hf
      split at hf
      · exact (tryUnique_some hf).2
      · simp at hf
  · rcases firstM_some h with ⟨av, _, hf⟩
    split at hf
    · exact (tryUnique_some hf).2
    · simp at hf

/-- The class strategy likewise returns only Oracle-verified selectors. -/
theorem generateClassSelector_unique {doc : DTree} {l : Loc} {sel : CssSel}
    (h : generateClassSelector doc l = some sel) :
    isSelectorUnique doc sel l = true := by
  unfold generateClassSelector at h
  split at h
  · exact Option.noConfusion h
  · split at h
    · rename_i s hp
      rcases Option.some_inj.mp h with rfl
      rcases firstM_some hp with ⟨c, _, hf⟩
      split at hf
      · exact (tryUnique_some hf).2
      · simp at hf
    · split at h
      · split at h
        · exact (tryUnique_some h).2
        · simp at h
      · simp at h

/-- The code's `_has_interactive_attributes` computes exactly the
allow-list the specification describes: the early `if not element.attrs`
exit changes nothing, and the interactive-ARIA-role test is subsumed by
the `role`-presence test in both formulations. -/
theorem hasInteractiveAttributes_eq_spec (n : Node) :
    hasInteractiveAttributes n = specInclusionSignal n := by
  unfold hasInteractiveAttributes specInclusionSignal interactiveAttributeNames
  by_cases h : (n.attrs.isEmpty && n.classes.isEmpty) = true
  · rw [if_pos h]
    have hac : n.attrs.isEmpty = true ∧ n.classes.isEmpty = true := by
      simpa using h
    rcases hac with ⟨ha, hc⟩
    have ha' : n.attrs = [] := by
      rcases hx : n.attrs with _ | _
      · rfl
      · rw [hx] at ha; simp at ha
    have hc' : n.classes = [] := by
      rcases hx : n.classes with _ | _
      · rfl
      · rw [hx] at hc; simp at hc
    simp [Node.attrGet, Node.attrGetD, ha', hc', strLower, interactiveRoles]
  · rw [if_neg h]
    simp [List.any_cons, List.any_nil, Bool.or_assoc]

/-! ## Claim theorems -/

/-- C7 (confirmed).  The inclusion test of `_classify_single_element`
yields a record exactly when the element type is interactive-by-default
or the node carries a signal from the fixed allow-list, formulated here
by `specInclusionSignal`, written from the wording of the
specification.  (The visibility filter of `classify_elements` is a
separate, prior gate; see C10.) -/
theorem claim_C7_inclusion_iff (cfg : ClassifierConfig) (doc : DTree) (l : Loc) :
    (classifySingleElement cfg doc l).isSome =
      (interactiveElementTypes.contains (getElementType l.node) ||
        specInclusionSignal l.node) := by
  unfold classifySingleElement
  rw [← hasInteractiveAttributes_eq_spec]
  by_cases h1 : interactiveElementTypes.contains (getElementType l.node) = true <;>
    by_cases h2 : hasInteractiveAttributes l.node = true <;>
      simp_all

/-- C3 (confirmed).  The confidence score of the code equals the exact
bonus/penalty formula of the specification (base 0.5, +0.3 interactive
type, +0.2 semantic type, +0.1 id or name, +0.1 long text, −0.2 generic
container without signal, clamped to [0, 1]), and recomputation on an
unchanged node is the identity. -/
theorem claim_C3_confidence_formula (cfg : ClassifierConfig) (self : DTree)
    (elementType : ElementType) (semanticType : Option SemanticType) :
    calculateConfidenceScore cfg self elementType semanticType =
        confidenceSpec cfg self elementType semanticType ∧
      calculateConfidenceScore cfg self elementType semanticType =
        calculateConfidenceScore cfg self elementType semanticType := by
  refine ⟨?_, rfl⟩
  have htext : (!(self.getText).isEmpty &&
      decide ((self.getText).length > cfg.minTextLength)) =
      decide ((self.getText).length > cfg.minTextLength) := by
    rcases he : (self.getText).isEmpty with _ | _
    · simp
    · have h0 : self.getText = "" := (String.isEmpty_iff (self.getText)).mp he
      rw [h0]
      simp
  simp only [calculateConfidenceScore, confidenceSpec,
    hasInteractiveAttributes_eq_spec, htext, decide_eq_true_eq]
  split_ifs <;> norm_num

/-- A filter-skip loop factored through the surviving elements: skipping
some inputs and keeping those the partial map accepts commutes with
running the partial map afterwards. -/
theorem filterMap_skip_factor {α β : Type} (f : α → Option β) (skip : α → Bool) :
    ∀ xs : List α,
      xs.filterMap (fun x => if skip x then none else f x) =
      (xs.filter (fun x => !skip x && (f x).isSome)).filterMap f
  | [] => rfl
  | x :: xs => by
    have ih := filterMap_skip_factor f skip xs
    rcases hs : skip x with _ | _ <;>
      rcases hf : f x with _ | r <;>
        simp [List.filterMap_cons, List.filter_cons, hs, hf, ih]

/-- C10 (confirmed).  Under the default configuration every hidden node —
even one that is interactive-by-default or carries an inclusion signal —
is excluded: it is not among the surviving elements, and the output
records are assembled exclusively from the surviving elements. -/
theorem claim_C10_hidden_excluded (doc : DTree) (l : Loc)
    (h : isHiddenElement l.node = true) :
    l ∉ classifiedLocs defaultConfig doc ∧
      classifyElements defaultConfig doc =
        (classifiedLocs defaultConfig doc).filterMap
          (classifySingleElement defaultConfig doc) := by
  constructor
  · intro hmem
    unfold classifiedLocs at hmem
    rcases List.mem_filter.mp hmem with ⟨_, hcond⟩
    rw [h] at hcond
    simp [defaultConfig] at hcond
  · unfold classifyElements classifiedLocs
    have hfac := filterMap_skip_factor (classifySingleElement defaultConfig doc)
      (fun l => !defaultConfig.includeHiddenElements && isHiddenElement l.node)
      (allLocs doc)
    simpa [Bool.not_and, Bool.not_not] using hfac

/-- Witness for C10: the hidden (yet interactive-by-default) button of
`docHidden` is excluded. -/
theorem claim_C10_hidden_excluded_witness :
    hiddenLoc ∉ classifiedLocs defaultConfig docHidden ∧
      classifyElements defaultConfig docHidden =
        (classifiedLocs defaultConfig docHidden).filterMap
          (classifySingleElement defaultConfig docHidden) :=
  claim_C10_hidden_excluded docHidden hiddenLoc (by decide)

/-- C1 (amended).  A locator returned by one of the Oracle-verified CSS
strategies (unique-attribute or class) does resolve, at generation time,
to exactly one node, structurally equal to the origin. -/
theorem claim_C1_amended (doc : DTree) (l : Loc) (sel : CssSel)
    (h : generateUniqueAttributeSelector doc l = some sel ∨
      generateClassSelector doc l = some sel) :
    (selectList doc sel).length = 1 ∧
      ∀ m ∈ selectList doc sel, DTree.beq m.self l.self = true := by
  rcases h with h | h
  · exact isSelectorUnique_spec (generateUniqueAttributeSelector_unique h)
  · exact isSelectorUnique_spec (generateClassSelector_unique h)

/-- Witness for C1 (amended): the `data-testid` selector of `payLoc` is
returned by the unique-attribute strategy and resolves to exactly the
origin. -/
theorem claim_C1_amended_witness :
    (selectList docPay (CssSel.chain [SimpleSel.attrEq "data-testid" "pay"])).length = 1 ∧
      ∀ m ∈ selectList docPay (CssSel.chain [SimpleSel.attrEq "data-testid" "pay"]),
        DTree.beq m.self payLoc.self = true :=
  claim_C1_amended docPay payLoc (CssSel.chain [SimpleSel.attrEq "data-testid" "pay"])
    (Or.inl (by decide))

/-- The id strategy only ever offers an id selector. -/
theorem generateIdSelector_shape {l : Loc} {sel : CssSel}
    (h : generateIdSelector l = some sel) :
    ∃ i, sel = .chain [.idOnly i] := by
  unfold generateIdSelector at h
  split at h
  · exact ⟨_, (Option.some_inj.mp h).symm⟩
  · exact Option.noConfusion h

/-- The attribute strategy only ever offers an attribute-equality
selector. -/
theorem generateUniqueAttributeSelector_shape {doc : DTree} {l : Loc}
    {sel : CssSel} (h : generateUniqueAttributeSelector doc l = some sel) :
    ∃ a v, sel = .chain [.attrEq a v] := by
  unfold generateUniqueAttributeSelector at h
  split at h
  · rename_i s hp
    rcases Option.some_inj.mp h with rfl
    rcases firstM_some hp with ⟨a, _, hf⟩
    rcases hg : l.node.attrGet a with _ | v
    · rw [hg] at hf; exact Option.noConfusion hf
    · rw [hg] at hf
      simp only at hf
      split at hf
      · rcases tryUnique_some hf with ⟨rfl, _⟩
        exact ⟨a, v, rfl⟩
      · exact Option.noConfusion hf
  · rcases firstM_some h with ⟨av, _, hf⟩
    split at hf
    · rcases tryUnique_some hf with ⟨rfl, _⟩
      exact ⟨av.1, av.2, rfl⟩
    · exact Option.noConfusion hf

/-- The class strategy only ever offers a nonempty class-list selector. -/
theorem generateClassSelector_shape {doc : DTree} {l : Loc} {sel : CssSel}
    (h : generateClassSelector doc l = some sel) :
    ∃ cs, cs ≠ [] ∧ sel = .chain [.classList cs] := by
  unfold generateClassSelector at h
  split at h
  · exact Option.noConfusion h
  · split at h
    · rename_i s hp
      rcases Option.some_inj.mp h with rfl
      rcases firstM_some hp with ⟨c, _, hf⟩
      split at hf
      · rcases tryUnique_some hf with ⟨rfl, _⟩
        exact ⟨[c], by simp, rfl⟩
      · exact Option.noConfusion hf
    · split at h
      · split at h
        · rcases tryUnique_some h with ⟨rfl, _⟩
          rename_i hne _
          refine ⟨_, ?_, rfl⟩
          intro he
          rw [he] at hne
          simp at hne
        · exact Option.noConfusion h
      · exact Option.noConfusion h

/-- The text strategy only ever offers a `:contains` selector. -/
theorem generateTextSelector_shape {l : Loc} {sel : CssSel}
    (h : generateTextSelector l = some sel) :
    ∃ t x, sel = .containsText t x := by
  unfold generateTextSelector at h
  split at h
  · exact Option.noConfusion h
  · split at h
    · exact ⟨_, _, (Option.some_inj.mp h).symm⟩
    · exact Option.noConfusion h

/-- The position strategy only ever offers an `:nth-child` selector. -/
theorem generateNthChildSelector_shape {l : Loc} {sel : CssSel}
    (h : generateNthChildSelector l = some sel) :
    ∃ t p, sel = .nthChild t p := by
  unfold generateNthChildSelector at h
  split at h
  · exact Option.noConfusion h
  · split at h
    · exact ⟨_, _, (Option.some_inj.mp h).symm⟩
    · exact Option.noConfusion h

/-- The hierarchical walk only returns nonempty chains whose parts all
render nonempty (it only ever prepends parts that render nonempty,
mirroring the `if part:` guard). -/
theorem hierGo_shape (doc : DTree) (target : Loc) :
    ∀ (fuel : Nat) (cur : Option Loc) (parts : List SimpleSel),
      (∀ p ∈ parts, renderSimple p ≠ "") →
      ∀ out, hierGo doc target fuel cur parts = some out →
        out ≠ [] ∧ ∀ p ∈ out, renderSimple p ≠ ""
  | 0, cur, parts, hp, out, h => by
    unfold hierGo at h
    split at h
    · exact Option.noConfusion h
    · rename_i hne
      rcases Option.some_inj.mp h with rfl
      exact ⟨fun he => hne (by rw [he]; rfl), hp⟩
  | fuel + 1, none, parts, hp, out, h => by
    unfold hierGo at h
    split at h
    · exact Option.noConfusion h
    · rename_i hne
      rcases Option.some_inj.mp h with rfl
      exact ⟨fun he => hne (by rw [he]; rfl), hp⟩
  | fuel + 1, some cur, parts, hp, out, h => by
    simp only [hierGo] at h
    by_cases hre : (renderSimple (generateElementPart doc cur)).isEmpty = true
    · rw [if_pos hre] at h
      split at h
      · exact hierGo_shape doc target fuel cur.parentLoc parts hp out h
      · split at h
        · rename_i hne _
          rcases Option.some_inj.mp h with rfl
          exact ⟨fun he => hne (by rw [he]; rfl), hp⟩
        · exact hierGo_shape doc target fuel cur.parentLoc parts hp out h
    · rw [if_neg hre] at h
      have hp' : ∀ p ∈ generateElementPart doc cur :: parts, renderSimple p ≠ "" := by
        intro p hmem
        rcases List.mem_cons.mp hmem with rfl | hm
        · intro he
          rw [he] at hre
          exact hre rfl
        · exact hp p hm
      split at h
      · exact hierGo_shape doc target fuel cur.parentLoc _ hp' out h
      · split at h
        · rcases Option.some_inj.mp h with rfl
          exact ⟨by simp, hp'⟩
        · exact hierGo_shape doc target fuel cur.parentLoc _ hp' out h

/-- Every candidate the selector pipeline can choose renders to a
nonempty locator string. -/
theorem generateSelectorSel_render_ne (doc : DTree) (l : Loc) :
    ∀ s, generateSelectorSel doc l = some s → renderCss s ≠ "" := by
  intro s hs
  unfold generateSelectorSel at hs
  rcases h1 : generateIdSelector l with _ | s1
  · rw [h1] at hs
    rcases h2 : generateUniqueAttributeSelector doc l with _ | s2
    · rw [h2] at hs
      rcases h3 : generateClassSelector doc l with _ | s3
      · rw [h3] at hs
        rcases h4 : generateHierarchicalSelector doc l with _ | s4
        · rw [h4] at hs
          rcases h5 : generateTextSelector l with _ | s5
          · rw [h5] at hs
            rcases generateNthChildSelector_shape hs with ⟨t, p, rfl⟩
            exact strAppend_ne_empty_right _ (by decide)
          · rw [h5] at hs
            rcases Option.some_inj.mp hs with rfl
            rcases generateTextSelector_shape h5 with ⟨t, x, rfl⟩
            exact strAppend_ne_empty_right _ (by decide)
        · rw [h4] at hs
          rcases Option.some_inj.mp hs with rfl
          unfold generateHierarchicalSelector at h4
          rcases Option.map_eq_some'.mp h4 with ⟨parts, hgo, rfl⟩
          rcases hierGo_shape doc l cssMaxDepth (some l) [] (by simp) parts hgo
            with ⟨hne, hall⟩
          rcases hparts : parts with _ | ⟨p, rest⟩
          · exact absurd hparts hne
          · show joinWith " > " ((p :: rest).map renderSimple) ≠ ""
            exact joinWith_ne_empty _ _ _ (hall p (by rw [hparts]; simp))
      · rw [h3] at hs
        rcases Option.some_inj.mp hs with rfl
        rcases generateClassSelector_shape h3 with ⟨cs, hcs, rfl⟩
        rcases hc : cs with _ | ⟨c, rest⟩
        · exact absurd hc hcs
        · show joinWith " > " [renderSimple (.classList (c :: rest))] ≠ ""
          show renderSimple (.classList (c :: rest)) ≠ ""
          show ("." ++ escapeCssIdentifier c) ++
            strConcat (rest.map (fun c2 => "." ++ escapeCssIdentifier c2)) ≠ ""
          exact strAppend_ne_empty_left _
            (strAppend_ne_empty_left _ (by decide))
    · rw [h2] at hs
      rcases Option.some_inj.mp hs with rfl
      rcases generateUniqueAttributeSelector_shape h2 with ⟨a, v, rfl⟩
      exact strAppend_ne_empty_right _ (by decide)
  · rw [h1] at hs
    rcases Option.some_inj.mp hs with rfl
    rcases generateIdSelector_shape h1 with ⟨i, rfl⟩
    show "#" ++ escapeCssIdentifier i ≠ ""
    exact strAppend_ne_empty_left _ (by decide)

/-- C4 (amended).  The generator returns the first candidate of its
ordered strategies; the unique-attribute and class candidates are
Oracle-verified before being offered; the bare tag name is returned only
when every strategy declines; and the returned locator is nonempty for
any node with a nonempty tag name — the fallback guarantee. -/
theorem claim_C4_amended (doc : DTree) (l : Loc) :
    (∀ sel, generateUniqueAttributeSelector doc l = some sel →
        isSelectorUnique doc sel l = true) ∧
      (∀ sel, generateClassSelector doc l = some sel →
        isSelectorUnique doc sel l = true) ∧
      (generateSelectorSel doc l = none → generateSelector doc l = l.node.tag) ∧
      (l.node.tag ≠ "" → generateSelector doc l ≠ "") := by
  refine ⟨fun sel h => generateUniqueAttributeSelector_unique h,
    fun sel h => generateClassSelector_unique h, ?_, ?_⟩
  · intro h
    unfold generateSelector
    rw [h]
  · intro htag
    unfold generateSelector
    rcases hs : generateSelectorSel doc l with _ | s
    · exact htag
    · exact generateSelectorSel_render_ne doc l s hs

/-- Witness for C4 (amended): on `docPay` the attribute candidate is
verified and the generated selector is nonempty. -/
theorem claim_C4_amended_witness :
    isSelectorUnique docPay (CssSel.chain [SimpleSel.attrEq "data-testid" "pay"])
        payLoc = true ∧
      generateSelector docPay payLoc ≠ "" :=
  ⟨(claim_C4_amended docPay payLoc).1 _ (by decide),
   (claim_C4_amended docPay payLoc).2.2.2 (by decide)⟩

/-- C5 (amended).  The relationship pass resolves the parent from the
immediate DOM parent only: whenever the entry's immediate parent node
structurally matches no mapped classified element — even if a classified
ancestor exists higher up — the recorded parent is `none`.  Intermediate
unclassified ancestors are not skipped. -/
theorem claim_C5_amended (doc : DTree) (records : List Record)
    (eid : String) (hier : Hierarchy)
    (hmem : (eid, hier) ∈ buildElementRelationships doc records)
    (hnomatch : ∀ e ∈ buildElementMap doc records, e.1 = eid →
      ∀ e2 ∈ buildElementMap doc records,
        (e.2.2.parentLoc.map
          (fun p => DTree.beq e2.2.2.self p.self)).getD false = false) :
    hier.parent = none := by
  unfold buildElementRelationships at hmem
  simp only [List.mem_map] at hmem
  rcases hmem with ⟨e, hein, heq⟩
  have h1 : e.1 = eid := congrArg Prod.fst heq
  have h2 : hierarchyFor (buildElementMap doc records) e.1 e.2.2 = hier :=
    congrArg Prod.snd heq
  rw [← h2]
  simp only [hierarchyFor]
  rcases hp : e.2.2.parentLoc with _ | p
  · rfl
  · unfold findInteractiveElementForDom
    have hfind : (buildElementMap doc records).find?
        (fun e2 => DTree.beq e2.2.2.self p.self) = none := by
      rw [List.find?_eq_none]
      intro x hx
      have hb := hnomatch e hein h1 x hx
      rw [hp] at hb
      simp only [Option.map_some', Option.getD_some] at hb
      simp [hb]
    simp [hfind]

/-- Witness for C5 (amended): the map entry of `id_c` in `docSkip` has an
unmapped immediate parent (the intermediate div), so its recorded
hierarchy has no parent. -/
theorem claim_C5_amended_witness : (⟨none, [], 3⟩ : Hierarchy).parent = none :=
  claim_C5_amended docSkip (classifyElements defaultConfig docSkip) "id_c"
    ⟨none, [], 3⟩ (by decide) (by decide)

/-- Every position part of an element below the document root carries a
`[n]` predicate: the element is always found among its same-tag
siblings. -/
theorem generatePositionPart_bracket (l : Loc) (h : l.ctx ≠ []) :
    '[' ∈ (generatePositionPart l).data := by
  unfold generatePositionPart
  rcases hc : l.ctx with _ | ⟨c, rest⟩
  · exact absurd hc h
  · simp only [hc]
    have hmem : l.self ∈ (c.before ++ l.self :: c.after).filter
        (fun (t : DTree) => t.nodeData.tag == l.node.tag) :=
      List.mem_filter.mpr
        ⟨List.mem_append_right _ (List.mem_cons_self _ _), beq_self_eq_true _⟩
    have hsome := @findIdx?_isSome_of_mem _ (fun s => DTree.beq s l.self) _ _
      hmem (DTree.beq_refl l.self)
    rcases hidx : ((c.before ++ l.self :: c.after).filter
        (fun (t : DTree) => t.nodeData.tag == l.node.tag)).findIdx?
        (fun s => DTree.beq s l.self) with _ | i
    · rw [hidx] at hsome
      simp at hsome
    · exact mem_strAppend_left _
        (mem_strAppend_left _ (mem_strAppend_right _ (by decide)))

/-- Every hierarchical part of an element below the document root
contains a `[`: via an id, attribute or class predicate, or the position
index. -/
theorem generateElementXpathPart_bracket (l : Loc) (h : l.ctx ≠ []) :
    '[' ∈ (generateElementXpathPart l).data := by
  unfold generateElementXpathPart
  split
  · exact mem_strAppend_left _ (mem_strAppend_left _ (mem_strAppend_left _
      (mem_strAppend_left _ (mem_strAppend_right _ (by decide)))))
  · split
    · exact mem_strAppend_left _ (mem_strAppend_left _ (mem_strAppend_left _
        (mem_strAppend_left _ (mem_strAppend_left _ (mem_strAppend_left _
          (mem_strAppend_right _ (by decide)))))))
    · split
      · exact mem_strAppend_left _ (mem_strAppend_left _ (mem_strAppend_left _
          (mem_strAppend_left _ (mem_strAppend_right _ (by decide)))))
      · exact generatePositionPart_bracket l h

theorem generateIdXpath_bracket {l : Loc} {x : String}
    (h : generateIdXpath l = some x) : '[' ∈ x.data := by
  unfold generateIdXpath at h
  split at h
  · rcases Option.some_inj.mp h with rfl
    exact mem_strAppend_left _ (mem_strAppend_left _ (mem_strAppend_left _
      (mem_strAppend_left _ (by decide))))
  · exact Option.noConfusion h

theorem xpathAttrCandidate_bracket (a v : String) :
    '[' ∈ (xpathAttrCandidate a v).data :=
  mem_strAppend_left _ (mem_strAppend_left _ (mem_strAppend_left _
    (mem_strAppend_left _ (mem_strAppend_left _ (mem_strAppend_left _
      (by decide))))))

theorem tryXPathUnique_some {l : Loc} {x y : String}
    (h : tryXPathUnique l x = some y) : y = x := by
  unfold tryXPathUnique at h
  split at h
  · exact (Option.some_inj.mp h).symm
  · exact Option.noConfusion h

theorem generateUniqueAttributeXpath_bracket {l : Loc} {x : String}
    (h : generateUniqueAttributeXpath l = some x) : '[' ∈ x.data := by
  unfold generateUniqueAttributeXpath at h
  split at h
  · rename_i s hp
    rcases Option.some_inj.mp h with rfl
    rcases firstM_some hp with ⟨a, _, hf⟩
    rcases hg : l.node.attrGet a with _ | v
    · rw [hg] at hf; exact Option.noConfusion hf
    · rw [hg] at hf
      simp only at hf
      split at hf
      · rcases tryXPathUnique_some hf with rfl
        exact xpathAttrCandidate_bracket a v
      · exact Option.noConfusion hf
  · rcases firstM_some h with ⟨av, _, hf⟩
    split at hf
    · exact Option.noConfusion hf
    · rcases tryXPathUnique_some hf with rfl
      exact xpathAttrCandidate_bracket av.1 av.2

theorem xpathTextCandidates_bracket (t e : String) :
    ∀ x ∈ xpathTextCandidates t e, '[' ∈ x.data := by
  intro x hx
  unfold xpathTextCandidates at hx
  simp only [List.mem_cons, List.not_mem_nil, or_false] at hx
  rcases hx with rfl | rfl | rfl | rfl
  · exact mem_strAppend_left _ (mem_strAppend_left _ (mem_strAppend_left _
      (mem_strAppend_left _ (mem_strAppend_right _ (by decide)))))
  · exact mem_strAppend_left _ (mem_strAppend_left _ (mem_strAppend_left _
      (mem_strAppend_left _ (mem_strAppend_right _ (by decide)))))
  · exact mem_strAppend_left _ (mem_strAppend_left _ (mem_strAppend_left _
      (mem_strAppend_left _ (by decide))))
  · exact mem_strAppend_left _ (mem_strAppend_left _ (mem_strAppend_left _
      (mem_strAppend_left _ (by decide))))

theorem generateTextXpath_bracket {l : Loc} {x : String}
    (h : generateTextXpath l = some x) : '[' ∈ x.data := by
  unfold generateTextXpath at h
  split at h
  · exact Option.noConfusion h
  · exact xpathTextCandidates_bracket _ _ x (List.mem_of_find?_eq_some h)

/-- The hierarchical walk, started on a nonempty part list one of whose
parts contains a `[`, always succeeds and its result keeps such a part. -/
theorem xpathHierGo_inv :
    ∀ (fuel : Nat) (cur : Option Loc) (parts : List String),
      parts ≠ [] → (∃ p ∈ parts, '[' ∈ p.data) →
      ∃ out, xpathHierGo fuel cur parts = some out ∧ ∃ p ∈ out, '[' ∈ p.data
  | 0, cur, parts, hne, hinv => by
    refine ⟨parts, ?_, hinv⟩
    unfold xpathHierGo
    rcases hp : parts with _ | ⟨p, ps⟩
    · exact absurd hp hne
    · rfl
  | fuel + 1, none, parts, hne, hinv => by
    refine ⟨parts, ?_, hinv⟩
    unfold xpathHierGo
    rcases hp : parts with _ | ⟨p, ps⟩
    · exact absurd hp hne
    · rfl
  | fuel + 1, some cur, parts, hne, hinv => by
    unfold xpathHierGo xpathHierNext
    by_cases hre : (generateElementXpathPart cur).isEmpty = true
    · rw [if_pos hre]
      split
      · exact ⟨parts, rfl, hinv⟩
      · exact xpathHierGo_inv fuel cur.parentLoc parts hne hinv
    · rw [if_neg hre]
      have hinv' : ∃ p ∈ generateElementXpathPart cur :: parts, '[' ∈ p.data := by
        rcases hinv with ⟨p, hp, hb⟩
        exact ⟨p, List.mem_cons_of_mem _ hp, hb⟩
      split
      · exact ⟨_, rfl, hinv'⟩
      · exact xpathHierGo_inv fuel cur.parentLoc _ (by simp) hinv'

/-- The hierarchical strategy always yields a path for an element below
the document root, and the path contains a `[`. -/
theorem generateHierarchicalXpath_bracket (l : Loc) (h : l.ctx ≠ []) :
    ∃ x, generateHierarchicalXpath l = some x ∧ '[' ∈ x.data := by
  have hpart := generateElementXpathPart_bracket l h
  have hne : (generateElementXpathPart l).isEmpty = false := by
    rcases he : (generateElementXpathPart l).isEmpty with _ | _
    · rfl
    · have h0 := (String.isEmpty_iff (generateElementXpathPart l)).mp he
      rw [h0] at hpart
      exact absurd hpart (by decide)
  unfold generateHierarchicalXpath
  rw [show cssMaxDepth = 9 + 1 from rfl]
  unfold xpathHierGo
  rw [hne]
  simp only [Bool.false_eq_true, if_false]
  have hstep : xpathHierNext 9 l [generateElementXpathPart l] =
      xpathHierGo 9 l.parentLoc [generateElementXpathPart l] := by
    unfold xpathHierNext
    rfl
  rw [hstep]
  rcases xpathHierGo_inv 9 l.parentLoc [generateElementXpathPart l] (by simp)
    ⟨_, List.mem_singleton_self _, hpart⟩ with ⟨out, hgo, p, hp, hb⟩
  rw [hgo]
  exact ⟨_, rfl, mem_strAppend_right _ (joinWith_mem _ out ⟨p, hp, hb⟩)⟩

theorem generatePositionXpath_bracket {l : Loc} {x : String}
    (h : generatePositionXpath l = some x) : '[' ∈ x.data := by
  unfold generatePositionXpath at h
  split at h
  · exact Option.noConfusion h
  · split at h
    · split at h
      · rcases Option.some_inj.mp h with rfl
        exact mem_strAppend_left _ (mem_strAppend_left _
          (mem_strAppend_right _ (by decide)))
      · rcases Option.some_inj.mp h with rfl
        exact mem_strAppend_left _ (mem_strAppend_left _
          (mem_strAppend_right _ (by decide)))
    · exact Option.noConfusion h

/-- Every XPath the generator can return for an element below the
document root contains a `[`. -/
theorem generateXpath_bracket (l : Loc) (h : l.ctx ≠ []) :
    '[' ∈ (generateXpath l).data := by
  unfold generateXpath
  rcases h1 : generateIdXpath l with _ | x1
  · rcases h2 : generateUniqueAttributeXpath l with _ | x2
    · rcases h3 : generateTextXpath l with _ | x3
      · rcases generateHierarchicalXpath_bracket l h with ⟨x4, h4, hb4⟩
        rw [h4]
        exact hb4
      · exact generateTextXpath_bracket h3
    · exact generateUniqueAttributeXpath_bracket h2
  · exact generateIdXpath_bracket h1

/-- C8 (confirmed).  The XPath generator never offers a deny-listed
expression (bare wildcard, bare `//div`, bare `//span`) as its primary
result: every candidate it can return contains a `[` predicate, and the
`//tag` fallback is unreachable because the hierarchical strategy always
produces a path. -/
theorem claim_C8_no_generic_primary (l : Loc) (h : l.ctx ≠ []) :
    isXPathTooGeneric (generateXpath l) = false := by
  have hb := generateXpath_bracket l h
  have hne : ∀ s : String, '[' ∉ s.data → generateXpath l ≠ s :=
    fun s hs he => hs (he ▸ hb)
  unfold isXPathTooGeneric
  rw [beq_eq_false_iff_ne.mpr (hne "//*" (by decide)),
    beq_eq_false_iff_ne.mpr (hne "//div" (by decide)),
    beq_eq_false_iff_ne.mpr (hne "//span" (by decide))]
  rfl

/-- Witness for C8: the duplicated-id button of `docDupIds` gets a
non-deny-listed primary XPath. -/
theorem claim_C8_no_generic_primary_witness :
    isXPathTooGeneric (generateXpath dupLoc) = false :=
  claim_C8_no_generic_primary dupLoc (by decide)

/-- C2 (code bug).  The claim says every value inserted into a locator is
escaped for the target syntax and that quote-containing values still
resolve.  `_escape_xpath_string` returns a value that contains a single
quote (but no double quote) completely unchanged, and the caller embeds it
into a single-quoted XPath literal, producing the ill-formed
`//*[@name='O'Brien']` — both at the generator level and in the stored
`xpath_generated` / `xpath_name` locators.  Even for a value with both
quote kinds the composed `concat(...)` expression is wrapped in yet
another pair of single quotes by every caller. -/
theorem claim_C2_unescaped_single_quote :
    escapeXPathString "O'Brien" = "O'Brien" ∧
    "O'Brien".data.contains squote = true ∧
    generateUniqueAttributeXpath obrienLoc = some "//*[@name='O'Brien']" ∧
    (generateLocators docObrien obrienLoc).lookup "xpath_generated" =
      some "//*[@name='O'Brien']" ∧
    escapeXPathString "O'Brien \"Team\"" = "concat('O', \"'\", 'Brien \"Team\"')" :=
  ⟨rfl, rfl, rfl, rfl, rfl⟩

/-- C6 (code bug).  The claim (and the docstring of
`_generate_element_id`, which promises a unique identifier) requires
distinct `element_id` values for distinct classified nodes.  Two
structurally identical sibling buttons — valid HTML — both receive
`button_0_btn_send`, because `list.index` finds the first structurally
equal sibling for both. -/
theorem claim_C6_duplicate_element_ids :
    (classifyElements defaultConfig docTwins).map Record.element_id =
      ["button_0_btn_send", "button_0_btn_send"] ∧
    ¬ ((classifyElements defaultConfig docTwins).map Record.element_id).Nodup :=
  ⟨rfl, by decide⟩

/-- C9 (confirmed).  Classification is a pure function of the
configuration and the tree snapshot: the embedded pipeline calls no
randomness (the `uuid` import of `element_classifier.py` is unused) and
keeps no cross-run state, so re-running it on an unchanged snapshot yields
the same element-id list and the same locator sets definitionally. -/
theorem claim_C9_determinism (cfg : ClassifierConfig) (doc : DTree) :
    (classifyElements cfg doc).map Record.element_id =
        (classifyElements cfg doc).map Record.element_id ∧
      (classifyElements cfg doc).map Record.locators =
        (classifyElements cfg doc).map Record.locators :=
  ⟨rfl, rfl⟩

/-- C1 (counterexample).  The LocatorSet of the first `card` div contains
the `css_class` locator `.card`, and that locator, evaluated against the
Oracle at generation time, resolves to two nodes — not exactly the origin.
`_generate_locators` stores this entry without any uniqueness test. -/
theorem claim_C1_counterexample :
    (generateLocators docCards cardLoc).lookup "css_class" = some ".card" ∧
    renderCss (CssSel.chain [SimpleSel.classList ["card"]]) = ".card" ∧
    (selectList docCards (CssSel.chain [SimpleSel.classList ["card"]])).length = 2 :=
  ⟨rfl, rfl, rfl⟩

/-- C4 (counterexample).  With a duplicated id attribute the generator
returns the id candidate `#dup` as its result even though the Oracle
resolves it to two nodes: the id strategy is never tested against the
Oracle, refuting "tests each candidate via the Oracle ... returns the
first candidate that passes". -/
theorem claim_C4_counterexample :
    generateSelector docDupIds dupLoc = "#dup" ∧
    renderCss (CssSel.chain [SimpleSel.idOnly "dup"]) = "#dup" ∧
    (selectList docDupIds (CssSel.chain [SimpleSel.idOnly "dup"])).length = 2 ∧
    isSelectorUnique docDupIds (CssSel.chain [SimpleSel.idOnly "dup"]) dupLoc = false :=
  ⟨rfl, rfl, rfl, rfl⟩

/-- C5 (counterexample).  In `docSkip` the button `id_c` has the
classified ancestor `id_gp` two levels up (the intermediate div is
unclassified), so the claim demands `parent = some "id_gp"`; the
relationship pass, which consults only the immediate DOM parent, records
`parent = none`. -/
theorem claim_C5_counterexample :
    (buildElementRelationships docSkip (classifyElements defaultConfig docSkip)).lookup
        "id_c" = some ⟨none, [], 3⟩ ∧
    generateElementId skipButtonLoc = "id_c" ∧
    nearestClassifiedAncestorId defaultConfig docSkip skipButtonLoc = some "id_gp" :=
  ⟨rfl, rfl, rfl⟩

end DomParser
